import Mathlib

/-!
Shallow embedding of the lifeline message-bus core:
`src/dyn_bus/storage.rs` (the type-erased registry `DynBusStorage`),
`src/dyn_bus/slot.rs` (`BusSlot`), `src/storage.rs` (the `Storage`
take-or-clone policy helpers), `src/channel.rs` / `src/channel/tokio.rs`
(the `Channel` contract and the tokio adapters), and `src/spawn.rs`
(the `Lifeline` cancellation handle and its wrapped task future).

Message identities (`TypeId`) are modelled as natural numbers; type-erased
slot values (`Box<dyn Any + Send>`) are modelled by a type parameter `V`.
`HashMap` is modelled as an association list with overwrite-on-insert, and
`HashSet` as a duplicate-free-on-insert list.  Registry operations are
sequentialized: the `RwLock` guarantees each Rust operation runs atomically
over the state, so each is a pure state transformer here.
-/

namespace LifelineModel

/-- Message/resource identity: stands for `std::any::TypeId`. -/
abbrev Id := Nat

/-- Association-list model of `HashMap<TypeId, A>`: lookup. -/
def alookup {A : Type} : List (Id × A) → Id → Option A
  | [], _ => none
  | (k, v) :: rest, i => if k = i then some v else alookup rest i

/-- Association-list model of `HashMap<TypeId, A>`: insert with overwrite. -/
def ainsert {A : Type} : List (Id × A) → Id → A → List (Id × A)
  | [], i, v => [(i, v)]
  | (k, w) :: rest, i, v =>
    if k = i then (i, v) :: rest else (k, w) :: ainsert rest i v

/-- Model of `HashSet<TypeId>::insert`. -/
def sinsert (s : List Id) (i : Id) : List Id :=
  if i ∈ s then s else i :: s

/-- Endpoint link discriminant, from `src/bus.rs` (`Link::{Tx, Rx, Both}`). -/
inductive Link where
  | tx
  | rx
  | both
deriving DecidableEq

/-- Errors of `DynBusStorage::clone_tx` / `clone_rx`, from `src/error.rs`
(`TakeChannelError`).  The bus/message name strings are dropped. -/
inductive TakeChannelError where
  | partTake (l : Link)
  | alreadyLinked
  | alreadyTaken (l : Link)
deriving DecidableEq

/-- Errors of `DynBusStorage::clone_resource`, from `src/error.rs`
(`TakeResourceError`). -/
inductive TakeResourceError where
  | uninit
  | taken
deriving DecidableEq

/-- `AlreadyLinkedError` from `src/error.rs`, with the name strings dropped. -/
inductive AlreadyLinkedError where
  | mk
deriving DecidableEq

/-- `BusSlot` from `src/dyn_bus/slot.rs`: `value: Option<Box<dyn Any + Send>>`.
The debug `name` field is dropped. -/
structure BusSlot (V : Type) where
  value : Option V
deriving DecidableEq

/-- `BusSlot::new` (`src/dyn_bus/slot.rs` line 22). -/
def BusSlot.new {V : Type} (v : Option V) : BusSlot V := ⟨v⟩

/-- `BusSlot::empty` (`src/dyn_bus/slot.rs` line 30). -/
def BusSlot.emptySlot {V : Type} : BusSlot V := ⟨none⟩

/-- `BusSlot::put` (`src/dyn_bus/slot.rs` line 37): unconditionally overwrites. -/
def BusSlot.put {V : Type} (_s : BusSlot V) (v : V) : BusSlot V := ⟨some v⟩

/-- `BusSlot::get_tx` (`src/dyn_bus/slot.rs` line 41): a read-only borrow of the
stored value. -/
def BusSlot.get_tx {V : Type} (s : BusSlot V) : Option V := s.value

/-- `Storage::clone_slot` (`src/storage.rs` line 37):
`res.as_ref().map(|t| t.clone())` — returns a clone, leaves the slot unchanged.
The pair is (returned value, slot contents after the call). -/
def Storage.clone_slot {V : Type} (clone : V → V) (res : Option V) :
    Option V × Option V :=
  (res.map clone, res)

/-- `Storage::take_slot` (`src/storage.rs` line 45): `res.take()` — returns the
value and empties the slot.  The pair is (returned value, slot contents after). -/
def Storage.take_slot {V : Type} (res : Option V) : Option V × Option V :=
  (res, none)

/-- `BusSlot::clone_tx` (`src/dyn_bus/slot.rs` lines 62-71): takes the boxed
value out, runs the channel's `clone_tx` on the option, and restores the
(possibly mutated) option into the slot. -/
def BusSlot.clone_tx {V : Type} (chanCloneTx : Option V → Option V × Option V)
    (s : BusSlot V) : Option V × BusSlot V :=
  let taken := s.value
  let r := chanCloneTx taken
  (r.1, ⟨r.2⟩)

/-- `BusSlot::clone_rx` (`src/dyn_bus/slot.rs` lines 51-60): same shape as
`clone_tx`, but the channel's `clone_rx` also receives an optional borrow of
the current Tx value. -/
def BusSlot.clone_rx {V : Type} (chanCloneRx : Option V → Option V → Option V × Option V)
    (txref : Option V) (s : BusSlot V) : Option V × BusSlot V :=
  let taken := s.value
  let r := chanCloneRx taken txref
  (r.1, ⟨r.2⟩)

/-- `BusSlot::clone_storage` (`src/dyn_bus/slot.rs` lines 73-81): applies the
resource's `take_or_clone` to the slot contents. -/
def BusSlot.clone_storage {V : Type} (takeOrClone : Option V → Option V × Option V)
    (s : BusSlot V) : Option V × BusSlot V :=
  let taken := s.value
  let r := takeOrClone taken
  (r.1, ⟨r.2⟩)

/-- The `Channel` contract (`src/channel.rs`) for one message identity:
construction from a capacity, default capacity, and the per-half
take-or-clone operations (`clone_tx`, `clone_rx`).  `channel` returns the
`(Tx, Rx)` pair. -/
structure ChannelDef (V : Type) where
  channel : Nat → V × V
  default_capacity : Nat
  clone_tx : Option V → Option V × Option V
  clone_rx : Option V → Option V → Option V × Option V

/-- `DynBusState` from `src/dyn_bus/storage.rs` lines 22-29. -/
structure DynBusState (V : Type) where
  channels : List Id
  capacity : List (Id × Nat)
  tx : List (Id × BusSlot V)
  rx : List (Id × BusSlot V)
  resources : List (Id × BusSlot V)

/-- `DynBusState::default` (`src/dyn_bus/storage.rs` lines 31-41). -/
def DynBusState.default {V : Type} : DynBusState V := ⟨[], [], [], [], []⟩

namespace DynBusStorage

/-- `DynBusStorage::link_channel` (`src/dyn_bus/storage.rs` lines 52-73).
`try_lock` (lines 344-358) yields the write guard only when the identity is
not yet in `channels`; otherwise the call is a no-op.  On first call it reads
the capacity override (falling back to the channel's default capacity),
constructs the pair, and stores both halves. -/
def link_channel {V : Type} (C : ChannelDef V) (i : Id) (s : DynBusState V) :
    DynBusState V :=
  if i ∈ s.channels then s
  else
    let cap := (alookup s.capacity i).getD C.default_capacity
    let pair := C.channel cap
    { s with
      rx := ainsert s.rx i (BusSlot.new (some pair.2))
      tx := ainsert s.tx i (BusSlot.new (some pair.1))
      channels := sinsert s.channels i }

/-- `DynBusStorage::clone_tx` (`src/dyn_bus/storage.rs` lines 101-120):
links the channel, then applies the Tx half's take-or-clone policy to the
tx slot.  A missing slot is `PartialTake`; an emptied value is `AlreadyTaken`. -/
def clone_tx {V : Type} (C : ChannelDef V) (i : Id) (s : DynBusState V) :
    Except TakeChannelError V × DynBusState V :=
  let s := link_channel C i s
  match alookup s.tx i with
  | none => (.error (.partTake .tx), s)
  | some slot =>
    let r := slot.clone_tx C.clone_tx
    let s' := { s with tx := ainsert s.tx i r.2 }
    match r.1 with
    | some v => (.ok v, s')
    | none => (.error (.alreadyTaken .tx), s')

/-- `DynBusStorage::clone_rx` (`src/dyn_bus/storage.rs` lines 75-99):
links the channel, reads an optional borrow of the current Tx value, then
applies the Rx half's take-or-clone policy (which receives that borrow) to
the rx slot.  Note the source reports `Link::Tx` in its `already_taken` error
(line 98); the model mirrors that. -/
def clone_rx {V : Type} (C : ChannelDef V) (i : Id) (s : DynBusState V) :
    Except TakeChannelError V × DynBusState V :=
  let s := link_channel C i s
  let txref := (alookup s.tx i).bind BusSlot.get_tx
  match alookup s.rx i with
  | none => (.error (.partTake .rx), s)
  | some slot =>
    let r := slot.clone_rx C.clone_rx txref
    let s' := { s with rx := ainsert s.rx i r.2 }
    match r.1 with
    | some v => (.ok v, s')
    | none => (.error (.alreadyTaken .tx), s')

/-- `DynBusStorage::clone_resource` (`src/dyn_bus/storage.rs` lines 122-136),
parameterized by the resource's `Storage::take_or_clone` implementation. -/
def clone_resource {V : Type} (takeOrClone : Option V → Option V × Option V)
    (i : Id) (s : DynBusState V) :
    Except TakeResourceError V × DynBusState V :=
  match alookup s.resources i with
  | none => (.error .uninit, s)
  | some slot =>
    let r := slot.clone_storage takeOrClone
    let s' := { s with resources := ainsert s.resources i r.2 }
    match r.1 with
    | some v => (.ok v, s')
    | none => (.error .taken, s')

/-- `DynBusStorage::store_resource` (`src/dyn_bus/storage.rs` lines 138-153):
inserts an empty slot when the key is absent, then unconditionally `put`s the
value into the slot.  Never fails. -/
def store_resource {V : Type} (i : Id) (v : V) (s : DynBusState V) :
    DynBusState V :=
  let resources :=
    if (alookup s.resources i).isSome then s.resources
    else ainsert s.resources i BusSlot.emptySlot
  match alookup resources i with
  | some slot => { s with resources := ainsert resources i (slot.put v) }
  | none => { s with resources := resources }

/-- `DynBusStorage::store_channel` (`src/dyn_bus/storage.rs` lines 155-194):
a no-op `Ok` when both halves are absent; `AlreadyLinkedError` when the
identity is already linked; otherwise stores both slots and marks the
identity linked. -/
def store_channel {V : Type} (i : Id) (rxv txv : Option V) (s : DynBusState V) :
    Except AlreadyLinkedError Unit × DynBusState V :=
  if rxv.isNone ∧ txv.isNone then (.ok (), s)
  else if i ∈ s.channels then (.error .mk, s)
  else
    (.ok (), { s with
      channels := sinsert s.channels i
      tx := ainsert s.tx i (BusSlot.new txv)
      rx := ainsert s.rx i (BusSlot.new rxv) })

/-- `DynBusStorage::capacity` (`src/dyn_bus/storage.rs` lines 323-342):
fails with `AlreadyLinkedError` when a capacity entry already exists for the
identity (note: the check is on the `capacity` map, not on `channels`);
otherwise records the override. -/
def capacity {V : Type} (i : Id) (n : Nat) (s : DynBusState V) :
    Except AlreadyLinkedError Unit × DynBusState V :=
  if (alookup s.capacity i).isSome then (.error .mk, s)
  else (.ok (), { s with capacity := ainsert s.capacity i n })

/-- Result of the `k+1`-th successive `clone_tx` call for one identity,
starting from state `s` (index `0` is the first call). -/
def clone_tx_iter {V : Type} (C : ChannelDef V) (i : Id) :
    Nat → DynBusState V → Except TakeChannelError V × DynBusState V
  | 0, s => clone_tx C i s
  | k + 1, s => clone_tx_iter C i k (clone_tx C i s).2

/-- Result of the `k+1`-th successive `clone_rx` call for one identity,
starting from state `s` (index `0` is the first call). -/
def clone_rx_iter {V : Type} (C : ChannelDef V) (i : Id) :
    Nat → DynBusState V → Except TakeChannelError V × DynBusState V
  | 0, s => clone_rx C i s
  | k + 1, s => clone_rx_iter C i k (clone_rx C i s).2

end DynBusStorage

/-- Registry invariant from the spec's data model: every identity in
`channels` has a (possibly drained) slot entry in both `tx` and `rx`. -/
def ChannelsLinkedInv {V : Type} (s : DynBusState V) : Prop :=
  ∀ j ∈ s.channels, (alookup s.tx j).isSome = true ∧ (alookup s.rx j).isSome = true

/-- Boolean success test for `Except`. -/
def isOkE {E A : Type} : Except E A → Bool
  | .ok _ => true
  | .error _ => false

/-- `Channel::clone_rx` for `tokio::sync::broadcast::Sender`
(`src/channel/tokio.rs` lines 59-68): `rx.take().or_else(|| tx.map(|tx|
tx.subscribe()))` — empties the rx slot, returning its old value when present
and otherwise a fresh subscription derived from the Tx borrow. -/
def broadcastCloneRx {V : Type} (subscribe : V → V) (rx : Option V) (tx : Option V) :
    Option V × Option V :=
  ((rx.orElse (fun _ => tx.map subscribe)), none)

/-- The tokio `mpsc` adapter (`src/channel/tokio.rs` lines 9-23): Tx is
clone-policy, Rx is take-policy, default capacity 16.  Endpoints are
abstracted to `Nat`: `channel cap = (cap, cap + 1)` stands in for the
constructed `(Sender, Receiver)` pair. -/
def mpscChan : ChannelDef Nat :=
  { channel := fun cap => (cap, cap + 1)
    default_capacity := 16
    clone_tx := Storage.clone_slot id
    clone_rx := fun rx _ => Storage.take_slot rx }

/-- The tokio `oneshot` adapter (`src/channel/tokio.rs` lines 113-127):
both halves are take-policy; the capacity argument is ignored and the
default capacity is 1.  Endpoints abstracted to `Nat`. -/
def oneshotChan : ChannelDef Nat :=
  { channel := fun _ => (0, 1)
    default_capacity := 1
    clone_tx := Storage.take_slot
    clone_rx := fun rx _ => Storage.take_slot rx }

/-- The tokio `watch` adapter (`src/channel/tokio.rs` lines 129-146):
Tx is take-policy, Rx is clone-policy; the capacity argument is ignored
(`watch::channel(T::default())`) and the default capacity is 1.  Endpoints
abstracted to `Nat`. -/
def watchChan : ChannelDef Nat :=
  { channel := fun _ => (0, 1)
    default_capacity := 1
    clone_tx := Storage.take_slot
    clone_rx := fun rx _ => Storage.clone_slot id rx }

/-- The tokio `broadcast` adapter (`src/channel/tokio.rs` lines 47-74):
Tx is clone-policy, Rx is derived from Tx by `subscribe`, default capacity
16.  Endpoints abstracted to `Nat`; `subscribe` adds 100. -/
def broadcastChan : ChannelDef Nat :=
  { channel := fun cap => (cap, cap + 1)
    default_capacity := 16
    clone_tx := Storage.clone_slot id
    clone_rx := broadcastCloneRx (fun t => t + 100) }

/-- `std::task::Poll`. -/
inductive Poll (A : Type) where
  | Ready (a : A)
  | Pending
deriving DecidableEq

/-- `LifelineInner` from `src/spawn.rs` lines 186-191.  An `AtomicWaker` is
modelled as the currently registered waker (wakers are named by numbers);
`register` overwrites it and `wake` takes and fires it. -/
structure LifelineInner where
  task_waker : Option Nat
  lifeline_waker : Option Nat
  complete : Bool
deriving DecidableEq

/-- `LifelineInner::new` (`src/spawn.rs` lines 194-200). -/
def LifelineInner.new : LifelineInner := ⟨none, none, false⟩

/-- `AtomicWaker::wake`: takes the registered waker and fires it.  Returns the
new registration and the list of wakers fired. -/
def wakerWake (w : Option Nat) : Option Nat × List Nat := (none, w.toList)

/-- `LifelineInner::abort` (`src/spawn.rs` lines 202-205): stores
`complete = true`, then wakes the task waker. -/
def LifelineInner.abort (st : LifelineInner) : LifelineInner × List Nat :=
  let st := { st with complete := true }
  let r := wakerWake st.task_waker
  ({ st with task_waker := r.1 }, r.2)

/-- Outcome of one poll: the returned `Poll`, the shared state afterwards, the
wakers fired during the poll, and whether the wrapped inner future was polled. -/
structure PollStep where
  result : Poll Unit
  inner : LifelineInner
  woken : List Nat
  polled_inner : Bool
deriving DecidableEq

/-- `LifelineFuture::poll` (`src/spawn.rs` lines 90-125).  `futureStep` is
what polling the wrapped inner future returns during this scheduling step,
and `w` is the context's waker.  If `complete` is already set, returns
`Ready` without polling the inner future; if the inner future returns
`Ready`, the wrapper returns `Ready` (note: without touching `complete` or
either waker); otherwise it registers the task waker, re-checks `complete`,
and returns accordingly. -/
def LifelineFuture.poll {A : Type} (st : LifelineInner) (futureStep : Poll A)
    (w : Nat) : PollStep :=
  if st.complete then ⟨.Ready (), st, [], false⟩
  else
    match futureStep with
    | .Ready _ => ⟨.Ready (), st, [], true⟩
    | .Pending =>
      let st := { st with task_waker := some w }
      if st.complete then ⟨.Ready (), st, [], true⟩
      else ⟨.Pending, st, [], true⟩

/-- `Lifeline::poll` (`src/spawn.rs` lines 157-178): `Ready` when `complete`
is set; otherwise registers the lifeline waker, re-checks, and returns. -/
def Lifeline.poll (st : LifelineInner) (w : Nat) : PollStep :=
  if st.complete then ⟨.Ready (), st, [], false⟩
  else
    let st := { st with lifeline_waker := some w }
    if st.complete then ⟨.Ready (), st, [], false⟩
    else ⟨.Pending, st, [], false⟩

/-- `impl Drop for Lifeline` (`src/spawn.rs` lines 180-184): calls
`inner.abort()`. -/
def Lifeline.dropHandle (st : LifelineInner) : LifelineInner × List Nat :=
  st.abort

/-- One underlying `tokio::sync::broadcast::Receiver::recv` outcome
(`Ok(t)`, `Err(Closed)` or `Err(Lagged(n))`). -/
inductive BRecvResult (T : Type) where
  | ok (t : T)
  | closed
  | lagged (n : Nat)
deriving DecidableEq

/-- Whether an underlying receive outcome is a lag notification. -/
def BRecvResult.isLagged {T : Type} : BRecvResult T → Bool
  | .lagged _ => true
  | .ok _ => false
  | .closed => false

/-- The unified `Receiver::recv` for `broadcast::Receiver`
(`src/channel/tokio.rs` lines 88-111): loops over the underlying receive
outcomes, returning `Some` on `Ok`, `None` on `Closed`, and retrying
(after a debug log) on `Lagged`.  The argument is the stream of underlying
outcomes; the outer `Option` is `none` when the stream is exhausted while
the loop is still retrying. -/
def broadcastRecv {T : Type} : List (BRecvResult T) → Option (Option T)
  | [] => none
  | .ok t :: _ => some (some t)
  | .closed :: _ => some none
  | .lagged _ :: rest => broadcastRecv rest

theorem alookup_ainsert {A : Type} (m : List (Id × A)) (i j : Id) (v : A) :
    alookup (ainsert m i v) j = if i = j then some v else alookup m j := by
  induction m with
  | nil => simp [ainsert, alookup]
  | cons hd tl ih =>
    obtain ⟨k, w⟩ := hd
    by_cases hk : k = i
    · subst hk
      simp only [ainsert, if_pos rfl, alookup]
      by_cases hj : k = j
      · subst hj; simp
      · simp [hj]
    · simp only [ainsert, if_neg hk, alookup]
      by_cases hj : k = j
      · subst hj
        have : ¬ i = k := fun h => hk h.symm
        simp [this]
      · simp [hj, ih]

theorem alookup_ainsert_self {A : Type} (m : List (Id × A)) (i : Id) (v : A) :
    alookup (ainsert m i v) i = some v := by
  simp [alookup_ainsert]

theorem alookup_ainsert_ne {A : Type} (m : List (Id × A)) {i j : Id} (v : A)
    (h : i ≠ j) : alookup (ainsert m i v) j = alookup m j := by
  simp [alookup_ainsert, h]

theorem isSome_alookup_ainsert {A : Type} (m : List (Id × A)) (i j : Id) (v : A)
    (h : (alookup m j).isSome = true) :
    (alookup (ainsert m i v) j).isSome = true := by
  rw [alookup_ainsert]
  by_cases hij : i = j <;> simp [hij, h]

theorem mem_sinsert_iff (s : List Id) (i j : Id) :
    j ∈ sinsert s i ↔ j = i ∨ j ∈ s := by
  unfold sinsert
  by_cases h : i ∈ s
  · simp only [if_pos h]
    constructor
    · exact fun hj => Or.inr hj
    · rintro (rfl | hj)
      · exact h
      · exact hj
  · simp [if_neg h]

theorem mem_sinsert_self (s : List Id) (i : Id) : i ∈ sinsert s i := by
  rw [mem_sinsert_iff]; exact Or.inl rfl

namespace DynBusStorage

theorem link_channel_of_mem {V : Type} (C : ChannelDef V) (i : Id)
    (s : DynBusState V) (h : i ∈ s.channels) : link_channel C i s = s := by
  simp [link_channel, h]

theorem mem_link_channel_self {V : Type} (C : ChannelDef V) (i : Id)
    (s : DynBusState V) : i ∈ (link_channel C i s).channels := by
  by_cases h : i ∈ s.channels
  · rw [link_channel_of_mem C i s h]; exact h
  · simp only [link_channel, if_neg h]
    exact mem_sinsert_self _ _

theorem link_channel_idem {V : Type} (C : ChannelDef V) (i : Id)
    (s : DynBusState V) :
    link_channel C i (link_channel C i s) = link_channel C i s :=
  link_channel_of_mem C i _ (mem_link_channel_self C i s)

theorem link_channel_capacity_eq {V : Type} (C : ChannelDef V) (i : Id)
    (s : DynBusState V) : (link_channel C i s).capacity = s.capacity := by
  unfold link_channel
  by_cases h : i ∈ s.channels <;> simp [h]

theorem link_channel_resources_eq {V : Type} (C : ChannelDef V) (i : Id)
    (s : DynBusState V) : (link_channel C i s).resources = s.resources := by
  unfold link_channel
  by_cases h : i ∈ s.channels <;> simp [h]

theorem link_channel_tx_of_not_mem {V : Type} (C : ChannelDef V) (i : Id)
    (s : DynBusState V) (h : i ∉ s.channels) :
    alookup (link_channel C i s).tx i =
      some (BusSlot.new (some (C.channel ((alookup s.capacity i).getD C.default_capacity)).1)) := by
  simp [link_channel, h, alookup_ainsert_self]

theorem link_channel_rx_of_not_mem {V : Type} (C : ChannelDef V) (i : Id)
    (s : DynBusState V) (h : i ∉ s.channels) :
    alookup (link_channel C i s).rx i =
      some (BusSlot.new (some (C.channel ((alookup s.capacity i).getD C.default_capacity)).2)) := by
  simp [link_channel, h, alookup_ainsert_self]

theorem link_channel_mem_channels {V : Type} (C : ChannelDef V) (i j : Id)
    (s : DynBusState V) :
    j ∈ (link_channel C i s).channels ↔ j = i ∨ j ∈ s.channels := by
  unfold link_channel
  by_cases h : i ∈ s.channels
  · simp only [if_pos h]
    constructor
    · exact fun hj => Or.inr hj
    · rintro (rfl | hj)
      · exact h
      · exact hj
  · simp [if_neg h, mem_sinsert_iff]

theorem store_resource_channels_eq {V : Type} (i : Id) (v : V)
    (s : DynBusState V) :
    (store_resource i v s).channels = s.channels ∧
    (store_resource i v s).tx = s.tx ∧ (store_resource i v s).rx = s.rx := by
  unfold store_resource
  split
  · cases h2 : alookup s.resources i <;> simp [h2]
  · cases h2 : alookup (ainsert s.resources i BusSlot.emptySlot) i <;> simp [h2]

theorem capacity_channels_eq {V : Type} (i : Id) (n : Nat) (s : DynBusState V) :
    (capacity i n s).2.channels = s.channels ∧
    (capacity i n s).2.tx = s.tx ∧ (capacity i n s).2.rx = s.rx := by
  unfold capacity
  split <;> exact ⟨rfl, rfl, rfl⟩

theorem clone_tx_of_slot {V : Type} (C : ChannelDef V) (i : Id)
    (s : DynBusState V) (slot : BusSlot V) (hm : i ∈ s.channels)
    (hl : alookup s.tx i = some slot) :
    clone_tx C i s =
      ((match (slot.clone_tx C.clone_tx).1 with
        | some v => Except.ok v
        | none => Except.error (TakeChannelError.alreadyTaken Link.tx)),
       { s with tx := ainsert s.tx i (slot.clone_tx C.clone_tx).2 }) := by
  unfold clone_tx
  rw [link_channel_of_mem C i s hm]
  simp only [hl]
  cases hr : (slot.clone_tx C.clone_tx).1 <;> simp [hr]

theorem clone_rx_of_slot {V : Type} (C : ChannelDef V) (i : Id)
    (s : DynBusState V) (slot : BusSlot V) (hm : i ∈ s.channels)
    (hl : alookup s.rx i = some slot) :
    clone_rx C i s =
      ((match (slot.clone_rx C.clone_rx ((alookup s.tx i).bind BusSlot.get_tx)).1 with
        | some v => Except.ok v
        | none => Except.error (TakeChannelError.alreadyTaken Link.tx)),
       { s with rx := (ainsert s.rx i (slot.clone_rx C.clone_rx ((alookup s.tx i).bind BusSlot.get_tx)).2) }) := by
  unfold clone_rx
  rw [link_channel_of_mem C i s hm]
  simp only [hl]
  cases hr : (slot.clone_rx C.clone_rx ((alookup s.tx i).bind BusSlot.get_tx)).1 <;>
    simp [hr]

end DynBusStorage

theorem channelsInv_link {V : Type} (C : ChannelDef V) (i : Id)
    (s : DynBusState V) (h : ChannelsLinkedInv s) :
    ChannelsLinkedInv (DynBusStorage.link_channel C i s) := by
  intro j hj
  by_cases hm : i ∈ s.channels
  · rw [DynBusStorage.link_channel_of_mem C i s hm] at hj ⊢
    exact h j hj
  · simp only [DynBusStorage.link_channel, if_neg hm] at hj ⊢
    rw [mem_sinsert_iff] at hj
    rcases hj with rfl | hj
    · exact ⟨by simp [alookup_ainsert_self], by simp [alookup_ainsert_self]⟩
    · obtain ⟨h1, h2⟩ := h j hj
      exact ⟨isSome_alookup_ainsert _ _ _ _ h1, isSome_alookup_ainsert _ _ _ _ h2⟩

theorem channelsInv_clone_tx {V : Type} (C : ChannelDef V) (i : Id)
    (s : DynBusState V) (h : ChannelsLinkedInv s) :
    ChannelsLinkedInv (DynBusStorage.clone_tx C i s).2 := by
  have h1 := channelsInv_link C i s h
  unfold DynBusStorage.clone_tx
  cases hl : alookup (DynBusStorage.link_channel C i s).tx i with
  | none => simpa [hl] using h1
  | some slot =>
    simp only [hl]
    cases hr : (slot.clone_tx C.clone_tx).1 <;>
      · simp only [hr]
        intro j hj
        obtain ⟨htx, hrx⟩ := h1 j hj
        exact ⟨isSome_alookup_ainsert _ _ _ _ htx, hrx⟩

theorem channelsInv_clone_rx {V : Type} (C : ChannelDef V) (i : Id)
    (s : DynBusState V) (h : ChannelsLinkedInv s) :
    ChannelsLinkedInv (DynBusStorage.clone_rx C i s).2 := by
  have h1 := channelsInv_link C i s h
  unfold DynBusStorage.clone_rx
  cases hl : alookup (DynBusStorage.link_channel C i s).rx i with
  | none => simpa [hl] using h1
  | some slot =>
    simp only [hl]
    cases hr : (slot.clone_rx C.clone_rx
        ((alookup (DynBusStorage.link_channel C i s).tx i).bind BusSlot.get_tx)).1 <;>
      · simp only [hr]
        intro j hj
        obtain ⟨htx, hrx⟩ := h1 j hj
        exact ⟨htx, isSome_alookup_ainsert _ _ _ _ hrx⟩

theorem channelsInv_store_channel {V : Type} (i : Id) (rxv txv : Option V)
    (s : DynBusState V) (h : ChannelsLinkedInv s) :
    ChannelsLinkedInv (DynBusStorage.store_channel i rxv txv s).2 := by
  unfold DynBusStorage.store_channel
  by_cases h0 : rxv.isNone = true ∧ txv.isNone = true
  · rw [if_pos h0]
    exact h
  · rw [if_neg h0]
    by_cases hm : i ∈ s.channels
    · rw [if_pos hm]
      exact h
    · rw [if_neg hm]
      intro j hj
      rw [mem_sinsert_iff] at hj
      rcases hj with rfl | hj
      · exact ⟨by simp [alookup_ainsert_self], by simp [alookup_ainsert_self]⟩
      · obtain ⟨h1, h2⟩ := h j hj
        exact ⟨isSome_alookup_ainsert _ _ _ _ h1, isSome_alookup_ainsert _ _ _ _ h2⟩

theorem channelsInv_capacity {V : Type} (i : Id) (n : Nat) (s : DynBusState V)
    (h : ChannelsLinkedInv s) :
    ChannelsLinkedInv (DynBusStorage.capacity i n s).2 := by
  intro j hj
  obtain ⟨hc, htx, hrx⟩ := DynBusStorage.capacity_channels_eq i n s (V := V)
  rw [hc] at hj
  rw [htx, hrx]
  exact h j hj

theorem channelsInv_store_resource {V : Type} (i : Id) (v : V)
    (s : DynBusState V) (h : ChannelsLinkedInv s) :
    ChannelsLinkedInv (DynBusStorage.store_resource i v s) := by
  intro j hj
  obtain ⟨hc, htx, hrx⟩ := DynBusStorage.store_resource_channels_eq i v s
  rw [hc] at hj
  rw [htx, hrx]
  exact h j hj

/-- C8: every identity present in `channels` has a (possibly drained) slot
entry in both the `tx` map and the `rx` map, and this invariant is preserved
by `link_channel`, `clone_tx`, `clone_rx`, `store_channel`, `capacity`
(set_capacity) and `store_resource`. -/
theorem C8_registry_invariant {V : Type} (C : ChannelDef V) (i : Id) (n : Nat)
    (v : V) (rxv txv : Option V) (s : DynBusState V) (h : ChannelsLinkedInv s) :
    ChannelsLinkedInv (DynBusStorage.link_channel C i s) ∧
    ChannelsLinkedInv (DynBusStorage.clone_tx C i s).2 ∧
    ChannelsLinkedInv (DynBusStorage.clone_rx C i s).2 ∧
    ChannelsLinkedInv (DynBusStorage.store_channel i rxv txv s).2 ∧
    ChannelsLinkedInv (DynBusStorage.capacity i n s).2 ∧
    ChannelsLinkedInv (DynBusStorage.store_resource i v s) :=
  ⟨channelsInv_link C i s h, channelsInv_clone_tx C i s h,
   channelsInv_clone_rx C i s h, channelsInv_store_channel i rxv txv s h,
   channelsInv_capacity i n s h, channelsInv_store_resource i v s h⟩

/-- C8 witness: the invariant holds of the empty registry and is preserved by
linking a concrete (mpsc-style) channel for identity 0. -/
theorem C8_registry_invariant_witness :
    ChannelsLinkedInv (DynBusState.default : DynBusState Nat) ∧
    ChannelsLinkedInv
      (DynBusStorage.link_channel mpscChan 0 (DynBusState.default : DynBusState Nat)) :=
  ⟨by intro j hj; simp [DynBusState.default] at hj,
   (C8_registry_invariant mpscChan 0 3 7 none none DynBusState.default
      (by intro j hj; simp [DynBusState.default] at hj)).1⟩

/-- C5: `link_channel` is idempotent per identity.  A repeated call leaves
the state unchanged; a call for an already-linked identity is a no-op; and
the first call for an identity constructs the channel pair (at the recorded
capacity override, or the channel's default capacity) and stores both halves. -/
theorem C5_link_channel_idempotent {V : Type} (C : ChannelDef V) (i : Id)
    (s : DynBusState V) :
    DynBusStorage.link_channel C i (DynBusStorage.link_channel C i s) =
      DynBusStorage.link_channel C i s ∧
    (i ∈ s.channels → DynBusStorage.link_channel C i s = s) ∧
    (i ∉ s.channels →
      alookup (DynBusStorage.link_channel C i s).tx i =
        some (BusSlot.new
          (some (C.channel ((alookup s.capacity i).getD C.default_capacity)).1)) ∧
      alookup (DynBusStorage.link_channel C i s).rx i =
        some (BusSlot.new
          (some (C.channel ((alookup s.capacity i).getD C.default_capacity)).2)) ∧
      i ∈ (DynBusStorage.link_channel C i s).channels) :=
  ⟨DynBusStorage.link_channel_idem C i s,
   fun h => DynBusStorage.link_channel_of_mem C i s h,
   fun h => ⟨DynBusStorage.link_channel_tx_of_not_mem C i s h,
             DynBusStorage.link_channel_rx_of_not_mem C i s h,
             DynBusStorage.mem_link_channel_self C i s⟩⟩

/-- C5 witness: linking identity 0 twice on the empty registry equals linking
once, and the first link stores the constructed pair (16, 17). -/
theorem C5_link_channel_idempotent_witness :
    DynBusStorage.link_channel mpscChan 0
        (DynBusStorage.link_channel mpscChan 0 (DynBusState.default : DynBusState Nat)) =
      DynBusStorage.link_channel mpscChan 0 (DynBusState.default : DynBusState Nat) ∧
    (0 ∉ (DynBusState.default : DynBusState Nat).channels) ∧
    alookup (DynBusStorage.link_channel mpscChan 0
        (DynBusState.default : DynBusState Nat)).tx 0 = some (BusSlot.new (some 16)) :=
  ⟨(C5_link_channel_idempotent mpscChan 0 DynBusState.default).1,
   by decide,
   ((C5_link_channel_idempotent mpscChan 0 DynBusState.default).2.2 (by decide)).1⟩

/-- C1 counterexample: on the empty registry, run `link_channel` for
identity 0 (no capacity override recorded), then call `capacity` (the
`set_capacity` operation).  The channel has been constructed, yet the call
returns `Ok`, contradicting the claim that every `set_capacity` call after
`resolve_channel` fails with `AlreadyLinked`. -/
theorem C1_counterexample :
    0 ∈ (DynBusStorage.link_channel mpscChan 0
          (DynBusState.default : DynBusState Nat)).channels ∧
    (DynBusStorage.capacity 0 5
        (DynBusStorage.link_channel mpscChan 0
          (DynBusState.default : DynBusState Nat))).1 = Except.ok () :=
  ⟨by decide, rfl⟩

/-- C1 (amended): `set_capacity` succeeds exactly when no capacity override
has been recorded for the identity, and fails with `AlreadyLinked` exactly
when one has — the check is on the capacity-override map, independent of
whether `resolve_channel` (link_channel) has run. -/
theorem C1_capacity_ok_iff {V : Type} (i : Id) (n : Nat) (s : DynBusState V) :
    ((DynBusStorage.capacity i n s).1 = Except.ok () ↔ alookup s.capacity i = none) ∧
    ((DynBusStorage.capacity i n s).1 = Except.error AlreadyLinkedError.mk ↔
      (alookup s.capacity i).isSome = true) := by
  unfold DynBusStorage.capacity
  by_cases h : (alookup s.capacity i).isSome = true
  · rw [if_pos h]
    constructor
    · constructor
      · intro hc
        exact absurd hc (by simp)
      · intro hc
        rw [hc] at h
        simp at h
    · simp [h]
  · rw [if_neg h]
    rw [Option.not_isSome_iff_eq_none] at h
    constructor
    · simp [h]
    · constructor
      · intro hc
        exact Except.noConfusion hc
      · intro hc
        rw [h] at hc
        simp at hc

theorem clone_tx_link_eq {V : Type} (C : ChannelDef V) (i : Id)
    (s : DynBusState V) :
    DynBusStorage.clone_tx C i s =
      DynBusStorage.clone_tx C i (DynBusStorage.link_channel C i s) := by
  unfold DynBusStorage.clone_tx
  rw [DynBusStorage.link_channel_idem]

theorem clone_rx_link_eq {V : Type} (C : ChannelDef V) (i : Id)
    (s : DynBusState V) :
    DynBusStorage.clone_rx C i s =
      DynBusStorage.clone_rx C i (DynBusStorage.link_channel C i s) := by
  unfold DynBusStorage.clone_rx
  rw [DynBusStorage.link_channel_idem]

theorem clone_tx_iter_link_eq {V : Type} (C : ChannelDef V) (i : Id)
    (s : DynBusState V) (k : Nat) :
    DynBusStorage.clone_tx_iter C i k s =
      DynBusStorage.clone_tx_iter C i k (DynBusStorage.link_channel C i s) := by
  cases k with
  | zero => exact clone_tx_link_eq C i s
  | succ k =>
    show DynBusStorage.clone_tx_iter C i k (DynBusStorage.clone_tx C i s).2 =
      DynBusStorage.clone_tx_iter C i k
        (DynBusStorage.clone_tx C i (DynBusStorage.link_channel C i s)).2
    rw [← clone_tx_link_eq]

theorem clone_rx_iter_link_eq {V : Type} (C : ChannelDef V) (i : Id)
    (s : DynBusState V) (k : Nat) :
    DynBusStorage.clone_rx_iter C i k s =
      DynBusStorage.clone_rx_iter C i k (DynBusStorage.link_channel C i s) := by
  cases k with
  | zero => exact clone_rx_link_eq C i s
  | succ k =>
    show DynBusStorage.clone_rx_iter C i k (DynBusStorage.clone_rx C i s).2 =
      DynBusStorage.clone_rx_iter C i k
        (DynBusStorage.clone_rx C i (DynBusStorage.link_channel C i s)).2
    rw [← clone_rx_link_eq]

theorem clone_tx_take_stuck {V : Type} (C : ChannelDef V) (i : Id)
    (s : DynBusState V) (hC : C.clone_tx = Storage.take_slot)
    (hm : i ∈ s.channels) (hs : alookup s.tx i = some (BusSlot.new none)) :
    (DynBusStorage.clone_tx C i s).1 =
      Except.error (TakeChannelError.alreadyTaken Link.tx) ∧
    i ∈ (DynBusStorage.clone_tx C i s).2.channels ∧
    alookup (DynBusStorage.clone_tx C i s).2.tx i = some (BusSlot.new none) := by
  rw [DynBusStorage.clone_tx_of_slot C i s (BusSlot.new none) hm hs, hC]
  exact ⟨rfl, hm, alookup_ainsert_self _ _ _⟩

theorem clone_tx_take_first {V : Type} (C : ChannelDef V) (i : Id)
    (s : DynBusState V) (hC : C.clone_tx = Storage.take_slot)
    (h : i ∉ s.channels) :
    (DynBusStorage.clone_tx C i s).1 =
      Except.ok (C.channel ((alookup s.capacity i).getD C.default_capacity)).1 ∧
    i ∈ (DynBusStorage.clone_tx C i s).2.channels ∧
    alookup (DynBusStorage.clone_tx C i s).2.tx i = some (BusSlot.new none) := by
  rw [clone_tx_link_eq]
  rw [DynBusStorage.clone_tx_of_slot C i (DynBusStorage.link_channel C i s) _
    (DynBusStorage.mem_link_channel_self C i s)
    (DynBusStorage.link_channel_tx_of_not_mem C i s h), hC]
  exact ⟨rfl, DynBusStorage.mem_link_channel_self C i s, alookup_ainsert_self _ _ _⟩

theorem clone_tx_iter_stuck {V : Type} (C : ChannelDef V) (i : Id)
    (hC : C.clone_tx = Storage.take_slot) :
    ∀ (k : Nat) (s : DynBusState V), i ∈ s.channels →
      alookup s.tx i = some (BusSlot.new none) →
      (DynBusStorage.clone_tx_iter C i k s).1 =
        Except.error (TakeChannelError.alreadyTaken Link.tx) ∧
      i ∈ (DynBusStorage.clone_tx_iter C i k s).2.channels ∧
      alookup (DynBusStorage.clone_tx_iter C i k s).2.tx i =
        some (BusSlot.new none) := by
  intro k
  induction k with
  | zero => exact fun s hm hs => clone_tx_take_stuck C i s hC hm hs
  | succ k ih =>
    intro s hm hs
    have h1 := clone_tx_take_stuck C i s hC hm hs
    exact ih _ h1.2.1 h1.2.2

theorem clone_rx_take_stuck {V : Type} (C : ChannelDef V) (i : Id)
    (s : DynBusState V) (hC : C.clone_rx = fun rx _ => Storage.take_slot rx)
    (hm : i ∈ s.channels) (hs : alookup s.rx i = some (BusSlot.new none)) :
    (DynBusStorage.clone_rx C i s).1 =
      Except.error (TakeChannelError.alreadyTaken Link.tx) ∧
    i ∈ (DynBusStorage.clone_rx C i s).2.channels ∧
    alookup (DynBusStorage.clone_rx C i s).2.rx i = some (BusSlot.new none) := by
  rw [DynBusStorage.clone_rx_of_slot C i s (BusSlot.new none) hm hs, hC]
  exact ⟨rfl, hm, alookup_ainsert_self _ _ _⟩

theorem clone_rx_take_first {V : Type} (C : ChannelDef V) (i : Id)
    (s : DynBusState V) (hC : C.clone_rx = fun rx _ => Storage.take_slot rx)
    (h : i ∉ s.channels) :
    (DynBusStorage.clone_rx C i s).1 =
      Except.ok (C.channel ((alookup s.capacity i).getD C.default_capacity)).2 ∧
    i ∈ (DynBusStorage.clone_rx C i s).2.channels ∧
    alookup (DynBusStorage.clone_rx C i s).2.rx i = some (BusSlot.new none) := by
  rw [clone_rx_link_eq]
  rw [DynBusStorage.clone_rx_of_slot C i (DynBusStorage.link_channel C i s) _
    (DynBusStorage.mem_link_channel_self C i s)
    (DynBusStorage.link_channel_rx_of_not_mem C i s h), hC]
  exact ⟨rfl, DynBusStorage.mem_link_channel_self C i s, alookup_ainsert_self _ _ _⟩

theorem clone_rx_iter_take_stuck {V : Type} (C : ChannelDef V) (i : Id)
    (hC : C.clone_rx = fun rx _ => Storage.take_slot rx) :
    ∀ (k : Nat) (s : DynBusState V), i ∈ s.channels →
      alookup s.rx i = some (BusSlot.new none) →
      (DynBusStorage.clone_rx_iter C i k s).1 =
        Except.error (TakeChannelError.alreadyTaken Link.tx) ∧
      i ∈ (DynBusStorage.clone_rx_iter C i k s).2.channels ∧
      alookup (DynBusStorage.clone_rx_iter C i k s).2.rx i =
        some (BusSlot.new none) := by
  intro k
  induction k with
  | zero => exact fun s hm hs => clone_rx_take_stuck C i s hC hm hs
  | succ k ih =>
    intro s hm hs
    have h1 := clone_rx_take_stuck C i s hC hm hs
    exact ih _ h1.2.1 h1.2.2

/-- C4: for an identity whose endpoint half has Take policy
(`Storage::take_or_clone` = `take_slot`) — the Tx half acquired via
`clone_tx`, or the Rx half acquired via `clone_rx` — the first acquire of
that half after linking returns `Ok` with the stored (constructed) endpoint,
and every subsequent acquire of the same half returns `Err(AlreadyTaken)`. -/
theorem C4_take_exclusivity {V : Type} (C : ChannelDef V) (i : Id)
    (s : DynBusState V) (h : i ∉ s.channels) :
    (C.clone_tx = Storage.take_slot →
      (DynBusStorage.clone_tx_iter C i 0 s).1 =
        Except.ok (C.channel ((alookup s.capacity i).getD C.default_capacity)).1 ∧
      ∀ k, (DynBusStorage.clone_tx_iter C i (k + 1) s).1 =
        Except.error (TakeChannelError.alreadyTaken Link.tx)) ∧
    (C.clone_rx = (fun rx _ => Storage.take_slot rx) →
      (DynBusStorage.clone_rx_iter C i 0 s).1 =
        Except.ok (C.channel ((alookup s.capacity i).getD C.default_capacity)).2 ∧
      ∀ k, (DynBusStorage.clone_rx_iter C i (k + 1) s).1 =
        Except.error (TakeChannelError.alreadyTaken Link.tx)) := by
  constructor
  · intro hC
    have h1 := clone_tx_take_first C i s hC h
    exact ⟨h1.1, fun k => (clone_tx_iter_stuck C i hC k _ h1.2.1 h1.2.2).1⟩
  · intro hC
    have h1 := clone_rx_take_first C i s hC h
    exact ⟨h1.1, fun k => (clone_rx_iter_take_stuck C i hC k _ h1.2.1 h1.2.2).1⟩

/-- C4 witness: identity 0 on an empty registry.  With the oneshot-style
channel (Take Tx) the first `clone_tx` returns the stored sender and the
second fails `AlreadyTaken`; with the mpsc-style channel (Clone Tx, Take Rx)
the first `clone_rx` returns the stored receiver and the second fails
`AlreadyTaken`. -/
theorem C4_take_exclusivity_witness :
    (0 ∉ (DynBusState.default : DynBusState Nat).channels) ∧
    oneshotChan.clone_tx = Storage.take_slot ∧
    (DynBusStorage.clone_tx_iter oneshotChan 0 0
        (DynBusState.default : DynBusState Nat)).1 = Except.ok 0 ∧
    (DynBusStorage.clone_tx_iter oneshotChan 0 1
        (DynBusState.default : DynBusState Nat)).1 =
      Except.error (TakeChannelError.alreadyTaken Link.tx) ∧
    mpscChan.clone_rx = (fun rx _ => Storage.take_slot rx) ∧
    (DynBusStorage.clone_rx_iter mpscChan 0 0
        (DynBusState.default : DynBusState Nat)).1 = Except.ok 17 ∧
    (DynBusStorage.clone_rx_iter mpscChan 0 1
        (DynBusState.default : DynBusState Nat)).1 =
      Except.error (TakeChannelError.alreadyTaken Link.tx) :=
  ⟨by decide, rfl,
   ((C4_take_exclusivity oneshotChan 0 DynBusState.default (by decide)).1 rfl).1,
   ((C4_take_exclusivity oneshotChan 0 DynBusState.default (by decide)).1 rfl).2 0,
   rfl,
   ((C4_take_exclusivity mpscChan 0 DynBusState.default (by decide)).2 rfl).1,
   ((C4_take_exclusivity mpscChan 0 DynBusState.default (by decide)).2 rfl).2 0⟩

theorem clone_tx_clone_steady {V : Type} (C : ChannelDef V) (f : V → V)
    (i : Id) (s : DynBusState V) (t0 : V)
    (hC : C.clone_tx = Storage.clone_slot f) (hm : i ∈ s.channels)
    (hs : alookup s.tx i = some (BusSlot.new (some t0))) :
    (DynBusStorage.clone_tx C i s).1 = Except.ok (f t0) ∧
    i ∈ (DynBusStorage.clone_tx C i s).2.channels ∧
    alookup (DynBusStorage.clone_tx C i s).2.tx i =
      some (BusSlot.new (some t0)) := by
  rw [DynBusStorage.clone_tx_of_slot C i s (BusSlot.new (some t0)) hm hs, hC]
  exact ⟨rfl, hm, alookup_ainsert_self _ _ _⟩

theorem clone_tx_iter_clone {V : Type} (C : ChannelDef V) (f : V → V) (i : Id)
    (t0 : V) (hC : C.clone_tx = Storage.clone_slot f) :
    ∀ (k : Nat) (s : DynBusState V), i ∈ s.channels →
      alookup s.tx i = some (BusSlot.new (some t0)) →
      (DynBusStorage.clone_tx_iter C i k s).1 = Except.ok (f t0) ∧
      i ∈ (DynBusStorage.clone_tx_iter C i k s).2.channels ∧
      alookup (DynBusStorage.clone_tx_iter C i k s).2.tx i =
        some (BusSlot.new (some t0)) := by
  intro k
  induction k with
  | zero => exact fun s hm hs => clone_tx_clone_steady C f i s t0 hC hm hs
  | succ k ih =>
    intro s hm hs
    have h1 := clone_tx_clone_steady C f i s t0 hC hm hs
    exact ih _ h1.2.1 h1.2.2

theorem clone_rx_clone_steady {V : Type} (C : ChannelDef V) (f : V → V)
    (i : Id) (s : DynBusState V) (r0 : V)
    (hC : C.clone_rx = fun rx _ => Storage.clone_slot f rx)
    (hm : i ∈ s.channels)
    (hs : alookup s.rx i = some (BusSlot.new (some r0))) :
    (DynBusStorage.clone_rx C i s).1 = Except.ok (f r0) ∧
    i ∈ (DynBusStorage.clone_rx C i s).2.channels ∧
    alookup (DynBusStorage.clone_rx C i s).2.rx i =
      some (BusSlot.new (some r0)) := by
  rw [DynBusStorage.clone_rx_of_slot C i s (BusSlot.new (some r0)) hm hs, hC]
  exact ⟨rfl, hm, alookup_ainsert_self _ _ _⟩

theorem clone_rx_iter_clone {V : Type} (C : ChannelDef V) (f : V → V) (i : Id)
    (r0 : V) (hC : C.clone_rx = fun rx _ => Storage.clone_slot f rx) :
    ∀ (k : Nat) (s : DynBusState V), i ∈ s.channels →
      alookup s.rx i = some (BusSlot.new (some r0)) →
      (DynBusStorage.clone_rx_iter C i k s).1 = Except.ok (f r0) ∧
      i ∈ (DynBusStorage.clone_rx_iter C i k s).2.channels ∧
      alookup (DynBusStorage.clone_rx_iter C i k s).2.rx i =
        some (BusSlot.new (some r0)) := by
  intro k
  induction k with
  | zero => exact fun s hm hs => clone_rx_clone_steady C f i s r0 hC hm hs
  | succ k ih =>
    intro s hm hs
    have h1 := clone_rx_clone_steady C f i s r0 hC hm hs
    exact ih _ h1.2.1 h1.2.2

/-- C9: for an identity whose endpoint half has Clone policy
(`Storage::take_or_clone` = `clone_slot`) — the Tx half acquired via
`clone_tx`, or the Rx half acquired via `clone_rx` — every acquire in any
sequence of calls returns `Ok` (a clone of the stored endpoint), and after
each call the slot still holds the originally stored endpoint unchanged. -/
theorem C9_clone_availability {V : Type} (C : ChannelDef V) (f : V → V)
    (i : Id) (s : DynBusState V) (h : i ∉ s.channels) :
    (C.clone_tx = Storage.clone_slot f →
      ∀ k, (DynBusStorage.clone_tx_iter C i k s).1 =
          Except.ok (f (C.channel ((alookup s.capacity i).getD C.default_capacity)).1) ∧
        alookup (DynBusStorage.clone_tx_iter C i k s).2.tx i =
          some (BusSlot.new
            (some (C.channel ((alookup s.capacity i).getD C.default_capacity)).1))) ∧
    (C.clone_rx = (fun rx _ => Storage.clone_slot f rx) →
      ∀ k, (DynBusStorage.clone_rx_iter C i k s).1 =
          Except.ok (f (C.channel ((alookup s.capacity i).getD C.default_capacity)).2) ∧
        alookup (DynBusStorage.clone_rx_iter C i k s).2.rx i =
          some (BusSlot.new
            (some (C.channel ((alookup s.capacity i).getD C.default_capacity)).2))) := by
  constructor
  · intro hC k
    rw [clone_tx_iter_link_eq]
    have h1 := clone_tx_iter_clone C f i
      (C.channel ((alookup s.capacity i).getD C.default_capacity)).1 hC k
      (DynBusStorage.link_channel C i s)
      (DynBusStorage.mem_link_channel_self C i s)
      (DynBusStorage.link_channel_tx_of_not_mem C i s h)
    exact ⟨h1.1, h1.2.2⟩
  · intro hC k
    rw [clone_rx_iter_link_eq]
    have h1 := clone_rx_iter_clone C f i
      (C.channel ((alookup s.capacity i).getD C.default_capacity)).2 hC k
      (DynBusStorage.link_channel C i s)
      (DynBusStorage.mem_link_channel_self C i s)
      (DynBusStorage.link_channel_rx_of_not_mem C i s h)
    exact ⟨h1.1, h1.2.2⟩

/-- C9 witness: identity 0 on an empty registry.  With the mpsc-style
channel (Clone Tx) the first and third `clone_tx` both return the stored
sender and the slot is unchanged; with the watch-style channel (Take Tx,
Clone Rx) the first and third `clone_rx` both return the stored receiver
and the slot is unchanged. -/
theorem C9_clone_availability_witness :
    (0 ∉ (DynBusState.default : DynBusState Nat).channels) ∧
    mpscChan.clone_tx = Storage.clone_slot id ∧
    (DynBusStorage.clone_tx_iter mpscChan 0 0
        (DynBusState.default : DynBusState Nat)).1 = Except.ok 16 ∧
    (DynBusStorage.clone_tx_iter mpscChan 0 2
        (DynBusState.default : DynBusState Nat)).1 = Except.ok 16 ∧
    alookup (DynBusStorage.clone_tx_iter mpscChan 0 2
        (DynBusState.default : DynBusState Nat)).2.tx 0 =
      some (BusSlot.new (some 16)) ∧
    watchChan.clone_rx = (fun rx _ => Storage.clone_slot id rx) ∧
    (DynBusStorage.clone_rx_iter watchChan 0 0
        (DynBusState.default : DynBusState Nat)).1 = Except.ok 1 ∧
    (DynBusStorage.clone_rx_iter watchChan 0 2
        (DynBusState.default : DynBusState Nat)).1 = Except.ok 1 ∧
    alookup (DynBusStorage.clone_rx_iter watchChan 0 2
        (DynBusState.default : DynBusState Nat)).2.rx 0 =
      some (BusSlot.new (some 1)) :=
  ⟨by decide, rfl,
   ((C9_clone_availability mpscChan id 0 DynBusState.default (by decide)).1 rfl 0).1,
   ((C9_clone_availability mpscChan id 0 DynBusState.default (by decide)).1 rfl 2).1,
   ((C9_clone_availability mpscChan id 0 DynBusState.default (by decide)).1 rfl 2).2,
   rfl,
   ((C9_clone_availability watchChan id 0 DynBusState.default (by decide)).2 rfl 0).1,
   ((C9_clone_availability watchChan id 0 DynBusState.default (by decide)).2 rfl 2).1,
   ((C9_clone_availability watchChan id 0 DynBusState.default (by decide)).2 rfl 2).2⟩

theorem clone_rx_broadcast_step {V : Type} (C : ChannelDef V) (sub : V → V)
    (i : Id) (s : DynBusState V) (t : V)
    (hC : C.clone_rx = broadcastCloneRx sub) (hm : i ∈ s.channels)
    (htx : alookup s.tx i = some (BusSlot.new (some t)))
    (hrx : (alookup s.rx i).isSome = true) :
    isOkE (DynBusStorage.clone_rx C i s).1 = true ∧
    i ∈ (DynBusStorage.clone_rx C i s).2.channels ∧
    alookup (DynBusStorage.clone_rx C i s).2.tx i =
      some (BusSlot.new (some t)) ∧
    (alookup (DynBusStorage.clone_rx C i s).2.rx i).isSome = true := by
  rcases Option.isSome_iff_exists.mp hrx with ⟨slot, hs⟩
  rw [DynBusStorage.clone_rx_of_slot C i s slot hm hs, hC, htx]
  refine ⟨?_, hm, rfl, by simp [alookup_ainsert_self]⟩
  cases hv : slot.value <;>
    simp [BusSlot.clone_rx, broadcastCloneRx, BusSlot.get_tx, BusSlot.new, hv, isOkE]

theorem clone_rx_broadcast_iter {V : Type} (C : ChannelDef V) (sub : V → V)
    (i : Id) (t : V) (hC : C.clone_rx = broadcastCloneRx sub) :
    ∀ (k : Nat) (s : DynBusState V), i ∈ s.channels →
      alookup s.tx i = some (BusSlot.new (some t)) →
      (alookup s.rx i).isSome = true →
      isOkE (DynBusStorage.clone_rx_iter C i k s).1 = true ∧
      alookup (DynBusStorage.clone_rx_iter C i k s).2.tx i =
        some (BusSlot.new (some t)) := by
  intro k
  induction k with
  | zero => exact fun s hm htx hrx =>
      ⟨(clone_rx_broadcast_step C sub i s t hC hm htx hrx).1,
       (clone_rx_broadcast_step C sub i s t hC hm htx hrx).2.2.1⟩
  | succ k ih =>
    intro s hm htx hrx
    have h1 := clone_rx_broadcast_step C sub i s t hC hm htx hrx
    exact ih _ h1.2.1 h1.2.2.1 h1.2.2.2

/-- C7: for a broadcast-style channel (Rx derived from Tx), the Rx-cloning
operation receives an optional borrow of the current Tx value: when the Rx
slot has been emptied but the Tx slot still holds `t`, `clone_rx` returns
`Ok` with a fresh receiver `sub t` derived by subscription; and every
successive `clone_rx` returns `Ok` while the Tx slot remains present (each
call leaves the Tx slot untouched). -/
theorem C7_broadcast_rx_always_ok {V : Type} (C : ChannelDef V) (sub : V → V)
    (i : Id) (s : DynBusState V) (t : V)
    (hC : C.clone_rx = broadcastCloneRx sub) (hm : i ∈ s.channels)
    (htx : alookup s.tx i = some (BusSlot.new (some t)))
    (hrx : (alookup s.rx i).isSome = true) :
    (alookup s.rx i = some (BusSlot.new none) →
      (DynBusStorage.clone_rx C i s).1 = Except.ok (sub t)) ∧
    ∀ k, isOkE (DynBusStorage.clone_rx_iter C i k s).1 = true ∧
      alookup (DynBusStorage.clone_rx_iter C i k s).2.tx i =
        some (BusSlot.new (some t)) := by
  constructor
  · intro hempty
    rw [DynBusStorage.clone_rx_of_slot C i s (BusSlot.new none) hm hempty, hC, htx]
    rfl
  · exact fun k => clone_rx_broadcast_iter C sub i t hC k s hm htx hrx

/-- C7 witness: broadcast-style channel for identity 0; with the Tx slot
holding 3 and the Rx slot emptied, `clone_rx` returns the subscription
`3 + 100`, and the first and second iterated calls both succeed. -/
theorem C7_broadcast_rx_always_ok_witness :
    broadcastChan.clone_rx = broadcastCloneRx (fun t => t + 100) ∧
    (0 ∈ ([0] : List Id)) ∧
    (DynBusStorage.clone_rx broadcastChan 0
        ⟨[0], [], [(0, BusSlot.new (some 3))], [(0, BusSlot.new none)], []⟩).1 =
      Except.ok 103 ∧
    isOkE (DynBusStorage.clone_rx_iter broadcastChan 0 1
        ⟨[0], [], [(0, BusSlot.new (some 3))], [(0, BusSlot.new none)], []⟩).1 = true :=
  ⟨rfl, by decide,
   (C7_broadcast_rx_always_ok broadcastChan (fun t => t + 100) 0
      ⟨[0], [], [(0, BusSlot.new (some 3))], [(0, BusSlot.new none)], []⟩ 3
      rfl (by decide) rfl rfl).1 rfl,
   ((C7_broadcast_rx_always_ok broadcastChan (fun t => t + 100) 0
      ⟨[0], [], [(0, BusSlot.new (some 3))], [(0, BusSlot.new none)], []⟩ 3
      rfl (by decide) rfl rfl).2 1).1⟩

theorem broadcastRecv_append_lags {T : Type} :
    ∀ (pre : List (BRecvResult T)), (∀ x ∈ pre, x.isLagged = true) →
      ∀ tail, broadcastRecv (pre ++ tail) = broadcastRecv tail := by
  intro pre
  induction pre with
  | nil => exact fun _ _ => rfl
  | cons hd tl ih =>
    intro hpre tail
    cases hd with
    | ok t =>
      have hfalse := hpre (BRecvResult.ok t) (List.mem_cons_self _ _)
      simp [BRecvResult.isLagged] at hfalse
    | closed =>
      have hfalse := hpre BRecvResult.closed (List.mem_cons_self _ _)
      simp [BRecvResult.isLagged] at hfalse
    | lagged n =>
      show broadcastRecv (tl ++ tail) = broadcastRecv tail
      exact ih (fun x hx => hpre x (by simp [hx])) tail

theorem broadcastRecv_closed_split {T : Type} :
    ∀ (l : List (BRecvResult T)), broadcastRecv l = some none →
      ∃ p r, l = p ++ BRecvResult.closed :: r ∧ ∀ x ∈ p, x.isLagged = true := by
  intro l
  induction l with
  | nil => intro h; exact absurd h (by simp [broadcastRecv])
  | cons hd tl ih =>
    intro h
    cases hd with
    | ok t => simp [broadcastRecv] at h
    | closed => exact ⟨[], tl, rfl, by simp⟩
    | lagged n =>
      obtain ⟨p, r, hl, hp⟩ := ih h
      refine ⟨BRecvResult.lagged n :: p, r, by simp [hl], ?_⟩
      intro x hx
      rcases List.mem_cons.mp hx with rfl | hx
      · rfl
      · exact hp x hx

/-- C6: the unified receive for a broadcast channel retries past any run of
lag notifications — returning `Some` of the next available message — and
returns `None` (end of stream) only when the underlying channel reports
permanent closure: any receive that returns `None` did so because the
outcome stream was a run of lags followed by `Closed`. -/
theorem C6_recv_never_false_closed {T : Type}
    (pre rest l : List (BRecvResult T)) (t : T)
    (hpre : ∀ x ∈ pre, x.isLagged = true) :
    broadcastRecv (pre ++ BRecvResult.ok t :: rest) = some (some t) ∧
    broadcastRecv (pre ++ BRecvResult.closed :: rest) = some none ∧
    (broadcastRecv l = some none →
      ∃ p r, l = p ++ BRecvResult.closed :: r ∧ ∀ x ∈ p, x.isLagged = true) :=
  ⟨by rw [broadcastRecv_append_lags pre hpre]; rfl,
   by rw [broadcastRecv_append_lags pre hpre]; rfl,
   broadcastRecv_closed_split l⟩

/-- C6 witness: after a lag of 2 the next message 5 is returned, and a lag
followed by closure yields `None` (closure), all at concrete inputs. -/
theorem C6_recv_never_false_closed_witness :
    (∀ x ∈ ([BRecvResult.lagged 2] : List (BRecvResult Nat)), x.isLagged = true) ∧
    broadcastRecv (([BRecvResult.lagged 2] : List (BRecvResult Nat)) ++
      BRecvResult.ok 5 :: [BRecvResult.closed]) = some (some 5) ∧
    broadcastRecv (([BRecvResult.lagged 2] : List (BRecvResult Nat)) ++
      BRecvResult.closed :: [BRecvResult.closed]) = some none :=
  ⟨by decide,
   (C6_recv_never_false_closed [BRecvResult.lagged 2] [BRecvResult.closed] [] 5
      (by decide)).1,
   (C6_recv_never_false_closed [BRecvResult.lagged 2] [BRecvResult.closed] [] 5
      (by decide)).2.1⟩

/-- C3: dropping a `Lifeline` handle sets the shared `complete` flag to true
and wakes the task's registered waker; and any poll of the task wrapper that
begins with `complete` already true returns `Ready` without polling the
wrapped inner future and without changing the shared state. -/
theorem C3_drop_cancels_and_poll_stops {A : Type} (st st2 : LifelineInner)
    (fs : Poll A) (w : Nat) (h : st2.complete = true) :
    ((Lifeline.dropHandle st).1.complete = true ∧
     (Lifeline.dropHandle st).2 = st.task_waker.toList) ∧
    ((LifelineFuture.poll st2 fs w).result = Poll.Ready () ∧
     (LifelineFuture.poll st2 fs w).polled_inner = false ∧
     (LifelineFuture.poll st2 fs w).inner = st2) := by
  refine ⟨⟨rfl, rfl⟩, ?_⟩
  unfold LifelineFuture.poll
  rw [h]
  exact ⟨rfl, rfl, rfl⟩

/-- C3 witness: dropping a handle whose task waker is 3 marks completion and
wakes waker 3; a wrapper poll entered with `complete = true` is `Ready` and
does not poll the inner future. -/
theorem C3_drop_cancels_and_poll_stops_witness :
    (Lifeline.dropHandle ⟨some 3, none, false⟩).1.complete = true ∧
    (Lifeline.dropHandle ⟨some 3, none, false⟩).2 = [3] ∧
    (LifelineFuture.poll ⟨none, none, true⟩ (Poll.Pending : Poll Nat) 5).result =
      Poll.Ready () ∧
    (LifelineFuture.poll ⟨none, none, true⟩ (Poll.Pending : Poll Nat) 5).polled_inner =
      false :=
  ⟨(C3_drop_cancels_and_poll_stops ⟨some 3, none, false⟩ ⟨none, none, true⟩
      (Poll.Pending : Poll Nat) 5 rfl).1.1,
   (C3_drop_cancels_and_poll_stops ⟨some 3, none, false⟩ ⟨none, none, true⟩
      (Poll.Pending : Poll Nat) 5 rfl).1.2,
   (C3_drop_cancels_and_poll_stops ⟨some 3, none, false⟩ ⟨none, none, true⟩
      (Poll.Pending : Poll Nat) 5 rfl).2.1,
   (C3_drop_cancels_and_poll_stops ⟨some 3, none, false⟩ ⟨none, none, true⟩
      (Poll.Pending : Poll Nat) 5 rfl).2.2.1⟩

/-- C2, evaluated at the failing input: from a fresh shared cell, when the
wrapped inner future completes naturally (returns `Ready`), the task wrapper
returns `Ready` but leaves `complete = false` and wakes no waker, and a
subsequent poll of the `Lifeline` handle returns `Pending`.  The
natural-completion path of `LifelineFuture::poll` (src/spawn.rs lines
106-109) neither stores `complete = true` nor wakes `lifeline_waker`; no
code path ever wakes `lifeline_waker`, so awaiting the handle cannot observe
natural completion, contradicting the claim and the spec. -/
theorem C2_natural_completion_code_eval :
    (LifelineFuture.poll LifelineInner.new (Poll.Ready 0) 7).result =
      Poll.Ready () ∧
    (LifelineFuture.poll LifelineInner.new (Poll.Ready 0) 7).inner.complete =
      false ∧
    (LifelineFuture.poll LifelineInner.new (Poll.Ready 0) 7).woken = [] ∧
    (Lifeline.poll (LifelineFuture.poll LifelineInner.new (Poll.Ready 0) 7).inner
        9).result = Poll.Pending := by
  decide

theorem store_resource_lookup {V : Type} (i : Id) (v : V) (s : DynBusState V) :
    alookup (DynBusStorage.store_resource i v s).resources i =
      some (BusSlot.new (some v)) := by
  unfold DynBusStorage.store_resource
  by_cases h : (alookup s.resources i).isSome = true
  · rw [if_pos h]
    rcases Option.isSome_iff_exists.mp h with ⟨slot, hs⟩
    simp only [hs]
    exact alookup_ainsert_self _ _ _
  · rw [if_neg h]
    have h2 : alookup (ainsert s.resources i BusSlot.emptySlot) i =
        some BusSlot.emptySlot := alookup_ainsert_self _ _ _
    simp only [h2]
    exact alookup_ainsert_self _ _ _

theorem clone_resource_of_slot {V : Type}
    (toc : Option V → Option V × Option V) (i : Id) (s : DynBusState V)
    (slot : BusSlot V) (hl : alookup s.resources i = some slot) :
    DynBusStorage.clone_resource toc i s =
      ((match (slot.clone_storage toc).1 with
        | some v => Except.ok v
        | none => Except.error TakeResourceError.taken),
       { s with resources := ainsert s.resources i (slot.clone_storage toc).2 }) := by
  unfold DynBusStorage.clone_resource
  simp only [hl]
  cases hr : (slot.clone_storage toc).1 <;> simp [hr]

/-- C10: `store_resource` always succeeds and unconditionally overwrites:
whatever the prior slot state (absent, populated, or drained by an exclusive
take), after storing `v` the resource slot holds exactly `v`, and a
subsequent `clone_resource` succeeds under take policy (returning `v`) and
under clone policy (returning a clone of `v`); no already-stored error is
ever produced (the operation is total and error-free). -/
theorem C10_store_resource_overwrites {V : Type} (i : Id) (v : V) (f : V → V)
    (s : DynBusState V) :
    alookup (DynBusStorage.store_resource i v s).resources i =
      some (BusSlot.new (some v)) ∧
    (DynBusStorage.clone_resource Storage.take_slot i
        (DynBusStorage.store_resource i v s)).1 = Except.ok v ∧
    (DynBusStorage.clone_resource (Storage.clone_slot f) i
        (DynBusStorage.store_resource i v s)).1 = Except.ok (f v) := by
  refine ⟨store_resource_lookup i v s, ?_, ?_⟩
  · rw [clone_resource_of_slot Storage.take_slot i _ _ (store_resource_lookup i v s)]
    rfl
  · rw [clone_resource_of_slot (Storage.clone_slot f) i _ _ (store_resource_lookup i v s)]
    rfl

end LifelineModel
